import Mathlib

/-!
Verification of the Category Normalization & Conditional Distribution Engine
frontend (terramot-persona). The definitions below are shallow embeddings of
the JavaScript source files under src/frontend/src and src/unnamed; numbers
are modelled as rationals, JS objects as structures, absent JS fields as
Option, and the JS falsy-or operator as an explicit match.
-/

namespace StorewiseDemographics

/-- A raw distribution item as consumed by StorewiseDemographics.DistributionChart:
a category label and a population count. -/
structure DataItem where
  category : String
  population : ℚ
deriving DecidableEq

/-- A chart datum built by DistributionChart: the item plus the attached group
total and the truncated display name (source line 62-66). -/
structure ChartItem where
  category : String
  population : ℚ
  total : ℚ
  name : String
deriving DecidableEq

/-- Name truncation performed when building chartData (source line 65). -/
def truncate20 (s : String) : String :=
  if s.length > 20 then s.take 20 ++ "..." else s

/-- The group total: data.reduce((sum, item) => sum + item.population, 0)
(source line 61). -/
def totalOf (data : List DataItem) : ℚ :=
  data.foldl (fun sum item => sum + item.population) 0

/-- chartData construction (source lines 62-66): every item carries the group
total. -/
def chartDataOf (data : List DataItem) : List ChartItem :=
  data.map fun item =>
    { category := item.category, population := item.population,
      total := totalOf data, name := truncate20 item.category }

/-- The guarded percentage computed by CustomTooltip (source line 33):
total > 0 ? ((value / total) * 100) : 0. -/
def displayedPercentage (value total : ℚ) : ℚ :=
  if 0 < total then value / total * 100 else 0

/-- One payload entry handed to the tooltip by recharts: the bar value and the
total field of the underlying chart datum, which may be absent. -/
structure TooltipPayloadItem where
  value : ℚ
  total : Option ℚ
deriving DecidableEq

/-- The JS expression x || 0 applied to a possibly absent number
(source line 32: data.payload.total || 0). -/
def jsOrZero (x : Option ℚ) : ℚ :=
  match x with
  | some v => if v = 0 then 0 else v
  | none => 0

/-- The lines displayed by the tooltip: label, population and percentage. -/
structure TooltipLine where
  label : String
  population : ℚ
  percentage : ℚ
deriving DecidableEq

/-- CustomTooltip (source lines 28-54): renders nothing unless active with a
nonempty payload; otherwise shows the first payload value and its guarded
percentage of the attached total. -/
def CustomTooltip (active : Bool) (payload : List TooltipPayloadItem)
    (label : String) : Option TooltipLine :=
  match active, payload with
  | true, d :: _ =>
      some { label := label, population := d.value,
             percentage := displayedPercentage d.value (jsOrZero d.total) }
  | _, _ => none

/-- The rendered output of DistributionChart: title, attached total, chart
data, and whether the pie branch was taken. -/
structure RenderedChart where
  title : String
  total : ℚ
  chartData : List ChartItem
  isPie : Bool
deriving DecidableEq

/-- DistributionChart (source lines 57-66): returns null when data is absent
or empty, otherwise attaches the group total to every item. -/
def DistributionChart (title : String) (data : Option (List DataItem))
    (chartType : String) : Option RenderedChart :=
  match data with
  | none => none
  | some l =>
      if l.length = 0 then none
      else some { title := title, total := totalOf l, chartData := chartDataOf l,
                  isPie := chartType = "pie" }

end StorewiseDemographics

namespace UnifiedDemographicAnalysis

/-- One item of a conditional distribution as consumed by
renderDistributionChart (source line 193). -/
structure DistItem where
  category : String
  percentage : ℚ
deriving DecidableEq

/-- A per-table outcome of the unified analysis response, with the fields the
component reads: status, display name, distribution data, the optional
similarity and overlap scores, the subset population and the optional error
text. -/
structure Outcome where
  name : String
  status : String
  data : List DistItem
  similarity_score : Option ℚ
  overlap_score : Option ℚ
  total_population : ℚ
  error : Option String
deriving DecidableEq

/-- A quality-tier indicator: display text and color. -/
structure Indicator where
  text : String
  color : String
deriving DecidableEq

/-- getStatusColor (source lines 92-100). -/
def getStatusColor (status : String) : String :=
  if status = "success" then "#10b981"
  else if status = "no_data" then "#6b7280"
  else if status = "no_match" then "#f59e0b"
  else if status = "error" then "#ef4444"
  else "#6b7280"

/-- getStatusText (source lines 102-110). -/
def getStatusText (status : String) : String :=
  if status = "success" then "✓ Available"
  else if status = "no_data" then "⚠ No Data"
  else if status = "no_match" then "⚠ No Match"
  else if status = "error" then "✗ Error"
  else "? Unknown"

/-- getSimilarityIndicator (source lines 112-118). -/
def getSimilarityIndicator (score : ℚ) : Indicator :=
  if 95/100 ≤ score then ⟨"Perfect Match", "#10b981"⟩
  else if 8/10 ≤ score then ⟨"Very Good", "#059669"⟩
  else if 1/2 ≤ score then ⟨"Good Match", "#fbbf24"⟩
  else if 3/10 ≤ score then ⟨"Partial", "#f59e0b"⟩
  else ⟨"Limited", "#ef4444"⟩

/-- The JS falsy-or on an optional number with a fallback. -/
def jsOr (x : Option ℚ) (fallback : ℚ) : ℚ :=
  match x with
  | some v => if v = 0 then fallback else v
  | none => fallback

/-- The JS falsy-or on an optional string with a fallback. -/
def jsOrStr (x : Option String) (fallback : String) : String :=
  match x with
  | some v => if v = "" then fallback else v
  | none => fallback

/-- The score used by renderDistributionChart (source line 199):
distributionData.similarity_score || distributionData.overlap_score || 1.0. -/
def effectiveScore (similarity_score overlap_score : Option ℚ) : ℚ :=
  jsOr similarity_score (jsOr overlap_score 1)

/-- The success panel produced by renderDistributionChart. -/
structure ChartPanel where
  key : String
  name : String
  indicator : Indicator
  statusColor : String
  statusText : String
  chartData : List DistItem
  totalPopulation : ℚ
deriving DecidableEq

/-- The panel produced by renderFailedDistribution: status display and error
text. -/
structure FailedPanel where
  key : String
  name : String
  statusColor : String
  statusText : String
  errorText : String
deriving DecidableEq

/-- The record built by renderDistributionChart once its status guard has
passed (source lines 193-327). -/
def successPanel (key : String) (d : Outcome) : ChartPanel :=
  { key := key, name := d.name,
    indicator := getSimilarityIndicator (effectiveScore d.similarity_score d.overlap_score),
    statusColor := getStatusColor d.status,
    statusText := getStatusText d.status,
    chartData := d.data,
    totalPopulation := d.total_population }

/-- renderDistributionChart (source lines 190-327): returns null unless the
outcome has status success. -/
def renderDistributionChart (key : String) (d : Outcome) : Option ChartPanel :=
  if d.status = "success" then some (successPanel key d) else none

/-- renderFailedDistribution (source lines 329-364): always renders a panel
showing the status color, the status text and the error text with its
fallback (source line 360). -/
def renderFailedDistribution (key : String) (d : Outcome) : FailedPanel :=
  { key := key, name := d.name,
    statusColor := getStatusColor d.status,
    statusText := getStatusText d.status,
    errorText := jsOrStr d.error "Unable to retrieve data" }

/-- A rendered panel: either a success chart or a failure panel. -/
inductive Panel where
  | chart : ChartPanel → Panel
  | failed : FailedPanel → Panel
deriving DecidableEq

/-- The dispatch performed per entry of analysisData.distributions
(source lines 608-614). A JS null return renders nothing, hence Option. -/
def renderEntry (kd : String × Outcome) : Option Panel :=
  if kd.2.status = "success" then (renderDistributionChart kd.1 kd.2).map Panel.chart
  else some (Panel.failed (renderFailedDistribution kd.1 kd.2))

/-- Object.entries(analysisData.distributions).map over the per-table
outcomes (source lines 608-614). -/
def renderDistributions (distributions : List (String × Outcome)) : List (Option Panel) :=
  distributions.map renderEntry

end UnifiedDemographicAnalysis

namespace UnifiedEducationAnalysis

/-- getSimilarityIndicator of the education analysis
(src/unnamed/part_001 lines 49-55). -/
def getSimilarityIndicator (score : ℚ) : UnifiedDemographicAnalysis.Indicator :=
  if 95/100 ≤ score then ⟨"Perfect Match", "#10b981"⟩
  else if 8/10 ≤ score then ⟨"Very Good Match", "#059669"⟩
  else if 3/5 ≤ score then ⟨"Good Match", "#fbbf24"⟩
  else if 2/5 ≤ score then ⟨"Moderate Match", "#f59e0b"⟩
  else ⟨"Limited Match", "#ef4444"⟩

/-- The extra line of the education failure panel (src/unnamed/part_001 lines
279-287): shown only when the outcome carries a best-effort matched category. -/
def bestMatchLine (matched_education : Option String) : Option String :=
  match matched_education with
  | some m => if m = "" then none else some ("Best match found: " ++ m)
  | none => none

end UnifiedEducationAnalysis

namespace UnifiedIncomeAnalysis

/-- getOverlapIndicator of the income analysis
(src/unnamed/part_002 lines 52-58). -/
def getOverlapIndicator (score : ℚ) : UnifiedDemographicAnalysis.Indicator :=
  if 95/100 ≤ score then ⟨"Perfect Match", "#10b981"⟩
  else if 8/10 ≤ score then ⟨"Very Good Match", "#059669"⟩
  else if 1/2 ≤ score then ⟨"Good Match", "#fbbf24"⟩
  else if 3/10 ≤ score then ⟨"Partial Match", "#f59e0b"⟩
  else ⟨"Limited Match", "#ef4444"⟩

end UnifiedIncomeAnalysis

namespace AppJs

/-- A marginal distribution item as consumed by App.js: category, value and
precomputed percentage. -/
structure MarginalItem where
  category : String
  value : ℚ
  percentage : ℚ
deriving DecidableEq

/-- The canonical age bucket order used by sortedAgeData
(src/frontend/src/App.js line 107). -/
def ageOrder : List String :=
  ["Under 25 years", "25 to 44 years", "45 to 64 years", "65 years and over"]

/-- The canonical income bucket order used by sortedIncomeData
(src/frontend/src/App.js lines 113-120). -/
def incomeOrder : List String :=
  ["Less than $10,000", "$10,000 to $14,999", "$15,000 to $19,999",
   "$20,000 to $24,999", "$25,000 to $29,999", "$30,000 to $34,999",
   "$35,000 to $39,999", "$40,000 to $44,999", "$45,000 to $49,999",
   "$50,000 to $59,999", "$60,000 to $74,999", "$75,000 to $99,999",
   "$100,000 to $124,999", "$125,000 to $149,999",
   "$150,000 to $199,999", "$200,000 or more"]

/-- JS Array.prototype.indexOf: position in the list, -1 when absent. -/
def jsIndexOf (order : List String) (c : String) : Int :=
  if c ∈ order then (order.indexOf c : Int) else -1

/-- The sort -- [...xs].sort((a, b) => order.indexOf(a.category) -
order.indexOf(b.category)) -- modelled by a stable sort on the comparator
order (App.js lines 108 and 121). -/
def sortByOrder (order : List String) (l : List MarginalItem) : List MarginalItem :=
  l.insertionSort fun a b => jsIndexOf order a.category ≤ jsIndexOf order b.category

/-- sortedAgeData (App.js lines 105-109): empty when age_marginal is absent. -/
def sortedAgeData (age_marginal : Option (List MarginalItem)) : List MarginalItem :=
  match age_marginal with
  | none => []
  | some l => sortByOrder ageOrder l

/-- sortedIncomeData (App.js lines 111-122): empty when income_marginal is
absent. -/
def sortedIncomeData (income_marginal : Option (List MarginalItem)) : List MarginalItem :=
  match income_marginal with
  | none => []
  | some l => sortByOrder incomeOrder l

/-- The category tick formatter of the App.js DistributionChart
(lines 36-47). -/
def formatCategory (ty category : String) : String :=
  if ty = "age" then (category.replace " years" "").replace " and over" "+"
  else if ty = "education" then
    (if category.length > 15 then category.take 15 ++ "..." else category)
  else if ty = "income" then
    ((category.replace "$" "").replace ",000" "K").replace " or more" "+"
  else category

/-- The rendered output of the App.js DistributionChart. -/
structure RenderedChart where
  title : String
  bars : List MarginalItem
  ticks : List String
deriving DecidableEq

/-- DistributionChart (App.js lines 33-91): returns null when data is absent
or empty. -/
def DistributionChart (data : Option (List MarginalItem)) (title ty : String) :
    Option RenderedChart :=
  match data with
  | none => none
  | some l =>
      if l.length = 0 then none
      else some { title := title, bars := l,
                  ticks := l.map fun item => formatCategory ty item.category }

end AppJs

namespace IndividualDistributions

/-- The category tick formatter of the IndividualDistributions chart
(lines 41-55); it adds a profession branch to the App.js formatter. -/
def formatCategory (ty category : String) : String :=
  if ty = "age" then (category.replace " years" "").replace " and over" "+"
  else if ty = "education" then
    (if category.length > 15 then category.take 15 ++ "..." else category)
  else if ty = "income" then
    ((category.replace "$" "").replace ",000" "K").replace " or more" "+"
  else if ty = "profession" then
    (if category.length > 20 then category.take 20 ++ "..." else category)
  else category

/-- DistributionChart (IndividualDistributions.js lines 38-119): returns null
when data is absent or empty. -/
def DistributionChart (data : Option (List AppJs.MarginalItem)) (title ty : String) :
    Option AppJs.RenderedChart :=
  match data with
  | none => none
  | some l =>
      if l.length = 0 then none
      else some { title := title, bars := l,
                  ticks := l.map fun item => formatCategory ty item.category }

end IndividualDistributions

namespace SpecModel

/-- Modelled from the spec: the AnalysisResult data model (spec section 3)
tags every per-table outcome with a status in
{success, no_data, no_match, error}. The backend that constructs these
outcomes is not under src/; only its frontend consumers are. -/
inductive Status where
  | success
  | no_data
  | no_match
  | error
deriving DecidableEq

/-- Modelled from the spec: the wire encoding of a status, as consumed by the
frontend status mappings. -/
def Status.key : Status → String
  | .success => "success"
  | .no_data => "no_data"
  | .no_match => "no_match"
  | .error => "error"

/-- A minimal JSON value, used to state response-shape properties. -/
inductive Json where
  | str : String → Json
  | num : ℚ → Json
  | obj : List (String × Json) → Json
  | arr : List Json → Json

/-- Field lookup on a JSON object; none on any other value. -/
def Json.get : Json → String → Option Json
  | .obj fields, k => fields.lookup k
  | _, _ => none

/-- Modelled from the spec: a canonical (or table-local) category of the
Category Matcher (spec sections 3 and 4.2) -- a label with optional numeric
bounds. The matcher itself is backend code absent from src/. -/
structure Category where
  label : String
  lo : Option Int := none
  hi : Option Int := none
deriving DecidableEq

/-- Modelled from the spec: a MatchResult (spec section 3) -- input, matched
label, score in [0,1], explanation and the classification of how the match
was obtained, with no_match as the low-confidence marker. -/
structure MatchResult where
  input : String
  matched : String
  score : ℚ
  explanation : String
  classification : String
deriving DecidableEq

/-- Lowercased character list of a string (case-insensitive comparison). -/
def lowerList (s : String) : List Char :=
  s.toList.map Char.toLower

/-- Whether the first character list occurs contiguously inside the second. -/
def containsSeq : List Char → List Char → Bool
  | t, [] => t.isEmpty
  | t, c :: rest => t.isPrefixOf (c :: rest) || containsSeq t rest

/-- Substring containment in either direction (spec rule 2). -/
def containsEitherWay (a b : List Char) : Bool :=
  containsSeq a b || containsSeq b a

/-- Modelled from the spec, rule 2: score scaled by the length ratio of the
shorter to the longer string, clamped into [0.6, 0.95). -/
def substringScore (a b : List Char) : ℚ :=
  let la : ℚ := a.length
  let lb : ℚ := b.length
  max (3/5) (min la lb / max la lb * (19/20))

/-- Stopwords removed before token overlap (spec rule 4: articles, or, and,
the). -/
def stopwords : List String :=
  ["a", "an", "the", "or", "and"]

/-- Splits a character list into maximal runs of alphanumeric characters. -/
def splitTokens : List Char → List Char → List (List Char)
  | [], acc => if acc.isEmpty then [] else [acc.reverse]
  | c :: rest, acc =>
      if c.isAlphanum then splitTokens rest (c :: acc)
      else if acc.isEmpty then splitTokens rest []
      else acc.reverse :: splitTokens rest []

/-- Lowercased tokens of a string, split on non-alphanumeric boundaries, with
stopwords removed and duplicates dropped (spec rule 4). -/
def tokensOf (s : String) : List String :=
  (((splitTokens (lowerList s) []).map fun cs => String.mk cs).filter
    fun t => !(stopwords.contains t)).dedup

/-- Modelled from the spec, rule 4: the Jaccard index of the two token sets. -/
def jaccard (x y : String) : ℚ :=
  let tx := tokensOf x
  let ty := tokensOf y
  let inter := (tx.filter fun t => ty.contains t).length
  let union := (tx ++ ty).dedup.length
  if union = 0 then 0 else (inter : ℚ) / (union : ℚ)

/-- First maximal run of digit characters in a list, if any. -/
def firstDigitRun : List Char → Option (List Char)
  | [] => none
  | ch :: rest =>
      if ch.isDigit then some (ch :: rest.takeWhile Char.isDigit)
      else firstDigitRun rest

/-- Numeric value of a digit run. -/
def digitsVal (cs : List Char) : Nat :=
  cs.foldl (fun acc ch => acc * 10 + (ch.toNat - 48)) 0

/-- A number extracted from the input string (spec rule 3): the first maximal
digit run, if any. -/
def extractNum (s : String) : Option Int :=
  (firstDigitRun s.toList).map fun cs => (digitsVal cs : Int)

/-- Modelled from the spec, rule 3: fires when the extracted number falls
within or near the candidate bounds (within one bucket width of the
midpoint); the score decreases with the normalized distance from the
midpoint and lies in [0.3, 0.9]. -/
def numScore (n lo hi : Int) : Option ℚ :=
  let mid : ℚ := ((lo : ℚ) + (hi : ℚ)) / 2
  let width : ℚ := (hi : ℚ) - (lo : ℚ) + 1
  let dist : ℚ := |(n : ℚ) - mid|
  if dist ≤ width then some (max (3/10) (9/10 - (3/5) * (dist / width))) else none

/-- Modelled from the spec: the scoring rules of the Category Matcher (spec
section 4.2) in priority order -- case-insensitive exact equality scores 1.0,
then substring containment, then numeric-range proximity for bounded
candidates, then token overlap. Returns the score and the name of the rule
that fired. -/
def scoreRule (input : String) (c : Category) : ℚ × String :=
  if lowerList input = lowerList c.label then (1, "exact")
  else if containsEitherWay (lowerList input) (lowerList c.label) then
    (substringScore (lowerList input) (lowerList c.label), "substring")
  else
    match c.lo, c.hi, extractNum input with
    | some lo, some hi, some n =>
        match numScore n lo hi with
        | some sc => (sc, "numeric-range-proximity")
        | none => (jaccard input c.label, "token-overlap")
    | _, _, _ => (jaccard input c.label, "token-overlap")

/-- The score a candidate receives for an input. -/
def scoreOf (input : String) (c : Category) : ℚ :=
  (scoreRule input c).1

/-- The best-scoring candidate among a head and a tail, scanning left to
right and keeping the first maximum. -/
def bestBy (f : Category → ℚ) (x : Category) (xs : List Category) : Category :=
  xs.foldl (fun b c => if f b < f c then c else b) x

/-- Modelled from the spec: the result assembled for the best candidate; the
explanation names the rule that fired (the numeric distance text is omitted
from the model), and the classification is downgraded to no_match when the
best score does not exceed the 0.15 floor (spec rule 5). -/
def mkResult (input : String) (b : Category) : MatchResult :=
  { input := input, matched := b.label, score := scoreOf input b,
    explanation := "matched by " ++ (scoreRule input b).2,
    classification :=
      if 3/20 < scoreOf input b then (scoreRule input b).2 else "no_match" }

/-- Modelled from the spec: match(inputString, candidateCategories) of the
Category Matcher (spec section 4.2). The matcher never throws: on any
nonempty candidate list it returns the best-scoring candidate, marking the
result no_match when no candidate beats the floor. -/
def matchCategory (input : String) : List Category → Option MatchResult
  | [] => none
  | c :: cs => some (mkResult input (bestBy (scoreOf input) c cs))

/-- A JSON encoding of a per-table outcome, with the fields the frontend
reads. -/
def outcomeJson (o : UnifiedDemographicAnalysis.Outcome) : Json :=
  Json.obj [("name", Json.str o.name), ("status", Json.str o.status),
            ("total_population", Json.num o.total_population)]

/-- The number of success outcomes in a distributions collection. -/
def countSuccess (ds : List (String × UnifiedDemographicAnalysis.Outcome)) : ℕ :=
  (ds.filter fun kd => kd.2.status = "success").length

/-- Modelled from the spec: the AGGREGATE step of the orchestrator (spec
section 4.5) assembling the response the frontend consumes, with the keys the
component actually reads (distributions, metadata.successful_retrievals,
metadata.total_distributions; UnifiedDemographicAnalysis.js lines 594 and
608). -/
def aggregateResponse (ds : List (String × UnifiedDemographicAnalysis.Outcome)) : Json :=
  Json.obj
    [("distributions", Json.obj (ds.map fun kd => (kd.1, outcomeJson kd.2))),
     ("metadata", Json.obj
        [("successful_retrievals", Json.num (countSuccess ds : ℚ)),
         ("total_distributions", Json.num (ds.length : ℚ))])]

end SpecModel

namespace UnifiedDemographicAnalysis

/-- The response shape the component relies on: per-table outcomes in an
object under the key distributions (line 608) and a metadata record carrying
successful_retrievals and total_distributions (line 594). -/
def frontendResponseShape (j : SpecModel.Json) : Prop :=
  (∃ ds, j.get "distributions" = some (SpecModel.Json.obj ds)) ∧
  (∃ m, j.get "metadata" = some m ∧
    (∃ a, m.get "successful_retrievals" = some (SpecModel.Json.num a)) ∧
    (∃ b, m.get "total_distributions" = some (SpecModel.Json.num b)))

/-- Follows the words of the spec (section 6 response shape), for comparison
with the shape the source consumes: a resolved_anchor record, the per-table
outcomes under the key tables, and a summary with attempted and succeeded. -/
def specResponseShape (j : SpecModel.Json) : Prop :=
  (∃ ra, j.get "resolved_anchor" = some ra) ∧
  (∃ ts, j.get "tables" = some (SpecModel.Json.arr ts)) ∧
  (∃ s, j.get "summary" = some s ∧
    (∃ a, s.get "attempted" = some (SpecModel.Json.num a)) ∧
    (∃ b, s.get "succeeded" = some (SpecModel.Json.num b)))

end UnifiedDemographicAnalysis

namespace Fixtures

/-- A success outcome that carries neither a similarity nor an overlap score,
as the gender analysis produces. -/
def noScoreOutcome : UnifiedDemographicAnalysis.Outcome :=
  { name := "Gender Distribution", status := "success",
    data := [⟨"Male", 52⟩, ⟨"Female", 48⟩],
    similarity_score := none, overlap_score := none,
    total_population := 100, error := none }

/-- A success outcome with a similarity score. -/
def exOutcome : UnifiedDemographicAnalysis.Outcome :=
  { name := "Age Distribution", status := "success",
    data := [⟨"Under 25 years", 40⟩],
    similarity_score := some 1, overlap_score := none,
    total_population := 120, error := none }

/-- A failed outcome with an error text. -/
def errOutcome : UnifiedDemographicAnalysis.Outcome :=
  { name := "Income Distribution", status := "error", data := [],
    similarity_score := none, overlap_score := none,
    total_population := 0, error := some "API failure" }

/-- A two-table distributions collection: one success, one failure. -/
def exDistributions : List (String × UnifiedDemographicAnalysis.Outcome) :=
  [("age", exOutcome), ("income", errOutcome)]

/-- A concrete aggregated response as the frontend consumes it. -/
def exResponse : SpecModel.Json :=
  SpecModel.aggregateResponse [("age", exOutcome)]

end Fixtures

/-- Claim C1: for every rendered distribution data point, the displayed
percentage equals the point count divided by the group total times 100 when
the group total is positive, and equals 0 when the group total is 0 -- the
division is guarded and never performed with a zero total. -/
theorem C1_displayed_percentage_guarded (active : Bool)
    (d : StorewiseDemographics.TooltipPayloadItem)
    (rest : List StorewiseDemographics.TooltipPayloadItem) (label : String)
    (line : StorewiseDemographics.TooltipLine)
    (hrender : StorewiseDemographics.CustomTooltip active (d :: rest) label = some line) :
    (∀ t, d.total = some t → 0 < t → line.percentage = d.value / t * 100) ∧
    (StorewiseDemographics.jsOrZero d.total = 0 → line.percentage = 0) := by
  cases active with
  | false => simp [StorewiseDemographics.CustomTooltip] at hrender
  | true =>
    simp only [StorewiseDemographics.CustomTooltip, Option.some.injEq] at hrender
    constructor
    · intro t ht hpos
      rw [← hrender, ht]
      have hjs : StorewiseDemographics.jsOrZero (some t) = t := by
        simp [StorewiseDemographics.jsOrZero, ne_of_gt hpos]
      simp [StorewiseDemographics.displayedPercentage, hjs, if_pos hpos]
    · intro hzero
      rw [← hrender]
      simp [StorewiseDemographics.displayedPercentage, hzero]

/-- Witness for C1 at a concrete payload: total 4 yields 3 / 4 * 100, total 0
yields 0. -/
theorem C1_witness :
    StorewiseDemographics.displayedPercentage 3 (StorewiseDemographics.jsOrZero (some 4))
      = 3 / 4 * 100 ∧
    StorewiseDemographics.displayedPercentage 3 (StorewiseDemographics.jsOrZero (some 0))
      = 0 :=
  ⟨(C1_displayed_percentage_guarded true ⟨3, some 4⟩ [] "Under 25 years" _ rfl).1
      4 rfl (by norm_num),
   (C1_displayed_percentage_guarded true ⟨3, some 0⟩ [] "Under 25 years" _ rfl).2 rfl⟩

/-- Claim C6: statuses come from the four-element set {success, no_data,
no_match, error}; the status-to-color and status-to-text mappings are total,
assign the four statuses pairwise distinct colors and labels, and send every
other input to the defaults. -/
theorem C6_status_mappings_total :
    (∀ st : SpecModel.Status, st.key ∈ ["success", "no_data", "no_match", "error"]) ∧
    (["success", "no_data", "no_match", "error"].map
      UnifiedDemographicAnalysis.getStatusColor).Pairwise (· ≠ ·) ∧
    (["success", "no_data", "no_match", "error"].map
      UnifiedDemographicAnalysis.getStatusText).Pairwise (· ≠ ·) ∧
    (∀ s : String, s ∉ ["success", "no_data", "no_match", "error"] →
      UnifiedDemographicAnalysis.getStatusColor s = "#6b7280" ∧
      UnifiedDemographicAnalysis.getStatusText s = "? Unknown") := by
  refine ⟨?_, by decide, by decide, ?_⟩
  · intro st
    cases st <;> simp [SpecModel.Status.key]
  · intro s hs
    simp only [List.mem_cons, List.not_mem_nil, or_false, not_or] at hs
    obtain ⟨h1, h2, h3, h4⟩ := hs
    exact ⟨by simp [UnifiedDemographicAnalysis.getStatusColor, h1, h2, h3, h4],
           by simp [UnifiedDemographicAnalysis.getStatusText, h1, h2, h3, h4]⟩

/-- Witness for C6 at the input pending, which is outside the status set. -/
theorem C6_witness :
    UnifiedDemographicAnalysis.getStatusColor "pending" = "#6b7280" ∧
    UnifiedDemographicAnalysis.getStatusText "pending" = "? Unknown" :=
  C6_status_mappings_total.2.2.2 "pending" (by decide)

/-- Claim C10: every chart component returns null when its data is absent or
empty, in App.js, IndividualDistributions.js and StorewiseDemographics.js. -/
theorem C10_empty_data_renders_nothing
    (d1 : Option (List AppJs.MarginalItem)) (t1 ty1 : String)
    (d2 : Option (List AppJs.MarginalItem)) (t2 ty2 : String)
    (d3 : Option (List StorewiseDemographics.DataItem)) (t3 ct3 : String) :
    (d1 = none ∨ d1 = some [] → AppJs.DistributionChart d1 t1 ty1 = none) ∧
    (d2 = none ∨ d2 = some [] →
      IndividualDistributions.DistributionChart d2 t2 ty2 = none) ∧
    (d3 = none ∨ d3 = some [] →
      StorewiseDemographics.DistributionChart t3 d3 ct3 = none) := by
  refine ⟨?_, ?_, ?_⟩ <;> rintro (rfl | rfl) <;>
    simp [AppJs.DistributionChart, IndividualDistributions.DistributionChart,
          StorewiseDemographics.DistributionChart]

/-- Witness for C10 at absent and empty data. -/
theorem C10_witness :
    AppJs.DistributionChart none "Age Distribution" "age" = none ∧
    IndividualDistributions.DistributionChart (some []) "Income Distribution" "income" = none ∧
    StorewiseDemographics.DistributionChart "Age" none "bar" = none :=
  ⟨(C10_empty_data_renders_nothing none "Age Distribution" "age"
      (some []) "Income Distribution" "income" none "Age" "bar").1 (Or.inl rfl),
   (C10_empty_data_renders_nothing none "Age Distribution" "age"
      (some []) "Income Distribution" "income" none "Age" "bar").2.1 (Or.inr rfl),
   (C10_empty_data_renders_nothing none "Age Distribution" "age"
      (some []) "Income Distribution" "income" none "Age" "bar").2.2 (Or.inl rfl)⟩

/-- Claim C2 counterexample: a success outcome carrying neither a similarity
nor an overlap score is treated as having score 1.0 by the render path and is
classified in the top Perfect Match tier, contradicting the claim that no
such outcome reaches score 1.0 or the top tier. -/
theorem C2_counterexample :
    Fixtures.noScoreOutcome.similarity_score = none ∧
    Fixtures.noScoreOutcome.overlap_score = none ∧
    UnifiedDemographicAnalysis.effectiveScore
      Fixtures.noScoreOutcome.similarity_score Fixtures.noScoreOutcome.overlap_score = 1 ∧
    ((UnifiedDemographicAnalysis.renderDistributionChart "gender" Fixtures.noScoreOutcome).map
      fun p => p.indicator.text) = some "Perfect Match" := by
  have h2 : UnifiedDemographicAnalysis.getSimilarityIndicator 1
      = ⟨"Perfect Match", "#10b981"⟩ := by
    unfold UnifiedDemographicAnalysis.getSimilarityIndicator
    rw [if_pos (by norm_num)]
  refine ⟨rfl, rfl, rfl, ?_⟩
  simp [UnifiedDemographicAnalysis.renderDistributionChart,
        UnifiedDemographicAnalysis.successPanel, Fixtures.noScoreOutcome,
        UnifiedDemographicAnalysis.effectiveScore, UnifiedDemographicAnalysis.jsOr, h2]

/-- Claim C2 (amended): an outcome carrying a nonzero similarity or overlap
score is classified by that score, and the top Perfect Match tier requires
score at least 0.95; but an outcome carrying no score at all (or only zero
scores) defaults to score 1.0 and is classified in the top tier. -/
theorem C2_amended_default_score (v : ℚ) (hv : v ≠ 0) :
    (∀ o, UnifiedDemographicAnalysis.effectiveScore (some v) o = v) ∧
    UnifiedDemographicAnalysis.effectiveScore none (some v) = v ∧
    UnifiedDemographicAnalysis.effectiveScore none none = 1 ∧
    UnifiedDemographicAnalysis.effectiveScore (some 0) (some 0) = 1 ∧
    (∀ s : ℚ, (UnifiedDemographicAnalysis.getSimilarityIndicator s).text
      = "Perfect Match" ↔ 95/100 ≤ s) := by
  refine ⟨?_, ?_, rfl, rfl, ?_⟩
  · intro o
    simp [UnifiedDemographicAnalysis.effectiveScore, UnifiedDemographicAnalysis.jsOr, hv]
  · simp [UnifiedDemographicAnalysis.effectiveScore, UnifiedDemographicAnalysis.jsOr, hv]
  · intro s
    constructor
    · intro ht
      by_contra hlt
      unfold UnifiedDemographicAnalysis.getSimilarityIndicator at ht
      rw [if_neg hlt] at ht
      split_ifs at ht <;> simp_all
    · intro hs
      unfold UnifiedDemographicAnalysis.getSimilarityIndicator
      rw [if_pos hs]

/-- Witness for the amended C2 at score 2 and at absent scores. -/
theorem C2_witness :
    UnifiedDemographicAnalysis.effectiveScore none (some 2) = 2 ∧
    UnifiedDemographicAnalysis.effectiveScore none none = 1 :=
  ⟨(C2_amended_default_score 2 (by norm_num)).2.1,
   (C2_amended_default_score 2 (by norm_num)).2.2.1⟩

/-- Claim C9 counterexample: at score 0.5 the education analysis places the
match in its fourth tier (color f59e0b) while the unified analysis places it
in its third tier (color fbbf24), so the tier classifications disagree. -/
theorem C9_counterexample :
    (UnifiedEducationAnalysis.getSimilarityIndicator (1/2)).color = "#f59e0b" ∧
    (UnifiedDemographicAnalysis.getSimilarityIndicator (1/2)).color = "#fbbf24" ∧
    (UnifiedIncomeAnalysis.getOverlapIndicator (1/2)).color = "#fbbf24" ∧
    (UnifiedEducationAnalysis.getSimilarityIndicator (1/2)).color ≠
      (UnifiedDemographicAnalysis.getSimilarityIndicator (1/2)).color := by
  have he : UnifiedEducationAnalysis.getSimilarityIndicator (1/2)
      = ⟨"Moderate Match", "#f59e0b"⟩ := by
    unfold UnifiedEducationAnalysis.getSimilarityIndicator
    rw [if_neg (by norm_num), if_neg (by norm_num), if_neg (by norm_num),
        if_pos (by norm_num)]
  have hu : UnifiedDemographicAnalysis.getSimilarityIndicator (1/2)
      = ⟨"Good Match", "#fbbf24"⟩ := by
    unfold UnifiedDemographicAnalysis.getSimilarityIndicator
    rw [if_neg (by norm_num), if_neg (by norm_num), if_pos (by norm_num)]
  have hc : UnifiedIncomeAnalysis.getOverlapIndicator (1/2)
      = ⟨"Good Match", "#fbbf24"⟩ := by
    unfold UnifiedIncomeAnalysis.getOverlapIndicator
    rw [if_neg (by norm_num), if_neg (by norm_num), if_pos (by norm_num)]
  rw [he, hu, hc]
  exact ⟨rfl, rfl, rfl, by simp⟩

/-- Claim C9 (amended): the unified and income tier classifications agree at
every score; the education classification agrees with them except on the
score bands [0.3, 0.4) and [0.5, 0.6), where its higher third and fourth
boundaries (0.6 and 0.4 instead of 0.5 and 0.3) assign the adjacent tier. -/
theorem C9_amended_tiers (s : ℚ) :
    (UnifiedDemographicAnalysis.getSimilarityIndicator s).color =
      (UnifiedIncomeAnalysis.getOverlapIndicator s).color ∧
    (s < 3/10 ∨ (2/5 ≤ s ∧ s < 1/2) ∨ 3/5 ≤ s →
      (UnifiedEducationAnalysis.getSimilarityIndicator s).color =
        (UnifiedDemographicAnalysis.getSimilarityIndicator s).color) := by
  constructor
  · unfold UnifiedDemographicAnalysis.getSimilarityIndicator
      UnifiedIncomeAnalysis.getOverlapIndicator
    split_ifs <;> rfl
  · intro h
    unfold UnifiedEducationAnalysis.getSimilarityIndicator
      UnifiedDemographicAnalysis.getSimilarityIndicator
    rcases h with h | ⟨h1, h2⟩ | h <;> split_ifs <;> first | rfl | linarith

/-- Witness for the amended C9 at score 2, which is outside the disagreement
bands. -/
theorem C9_witness :
    (UnifiedDemographicAnalysis.getSimilarityIndicator 2).color =
      (UnifiedIncomeAnalysis.getOverlapIndicator 2).color ∧
    (UnifiedEducationAnalysis.getSimilarityIndicator 2).color =
      (UnifiedDemographicAnalysis.getSimilarityIndicator 2).color :=
  ⟨(C9_amended_tiers 2).1, (C9_amended_tiers 2).2 (Or.inr (Or.inr (by norm_num)))⟩

/-- Claim C7 counterexample: a concrete aggregated response consumed by the
frontend (outcomes under distributions, counters under metadata) does not
have the shape the spec gives -- it has no tables key, no summary record and
no resolved_anchor record. -/
theorem C7_counterexample :
    UnifiedDemographicAnalysis.frontendResponseShape Fixtures.exResponse ∧
    ¬ UnifiedDemographicAnalysis.specResponseShape Fixtures.exResponse := by
  constructor
  · exact ⟨⟨_, rfl⟩, ⟨_, rfl, ⟨_, rfl⟩, ⟨_, rfl⟩⟩⟩
  · rintro ⟨⟨ra, hra⟩, -, -⟩
    have hnone : SpecModel.Json.get Fixtures.exResponse "resolved_anchor" = none := rfl
    rw [hnone] at hra
    exact Option.noConfusion hra

/-- Claim C7 (amended): every aggregated analysis response carries its
per-table outcomes in an object under the key distributions and a metadata
record with successful_retrievals and total_distributions, and the success
count never exceeds the number of outcomes. -/
theorem C7_amended_response_shape
    (ds : List (String × UnifiedDemographicAnalysis.Outcome)) :
    UnifiedDemographicAnalysis.frontendResponseShape (SpecModel.aggregateResponse ds) ∧
    SpecModel.countSuccess ds ≤ ds.length := by
  refine ⟨⟨⟨_, rfl⟩, ⟨_, rfl, ⟨_, rfl⟩, ⟨_, rfl⟩⟩⟩, ?_⟩
  exact List.length_filter_le _ _

/-- The fold computing the group total equals the sum of the populations. -/
lemma totalOf_foldl (l : List StorewiseDemographics.DataItem) (a : ℚ) :
    l.foldl (fun sum item => sum + item.population) a
      = a + (l.map fun i => i.population).sum := by
  induction l generalizing a with
  | nil => simp
  | cons x xs ih =>
    simp only [List.foldl_cons, List.map_cons, List.sum_cons, ih, add_assoc]

/-- totalOf is the sum of the item populations. -/
lemma totalOf_eq_sum (l : List StorewiseDemographics.DataItem) :
    StorewiseDemographics.totalOf l = (l.map fun i => i.population).sum := by
  unfold StorewiseDemographics.totalOf
  rw [totalOf_foldl, zero_add]

/-- Summing x / T * 100 over a list factors through the sum of the list. -/
lemma sum_map_div_mul (l : List ℚ) (T : ℚ) :
    (l.map fun x => x / T * 100).sum = l.sum / T * 100 := by
  induction l with
  | nil => simp
  | cons x xs ih =>
    simp only [List.map_cons, List.sum_cons, ih]
    ring

/-- Claim C5: for a distribution whose total is the sum of its item counts,
every chart item carries that total, and the guarded per-item percentages sum
to 100 within the 0.1 tolerance whenever the total is positive. -/
theorem C5_percentage_sum (data : List StorewiseDemographics.DataItem)
    (_hne : data ≠ []) (hpos : 0 < StorewiseDemographics.totalOf data) :
    (∀ item ∈ StorewiseDemographics.chartDataOf data,
      item.total = (data.map fun i => i.population).sum) ∧
    |((StorewiseDemographics.chartDataOf data).map fun item =>
        StorewiseDemographics.displayedPercentage item.population item.total).sum - 100|
      ≤ 1/10 := by
  constructor
  · intro item hitem
    simp only [StorewiseDemographics.chartDataOf, List.mem_map] at hitem
    obtain ⟨a, _, rfl⟩ := hitem
    exact totalOf_eq_sum data
  · have hmap : ((StorewiseDemographics.chartDataOf data).map fun item =>
        StorewiseDemographics.displayedPercentage item.population item.total)
        = data.map fun i => StorewiseDemographics.displayedPercentage i.population
            (StorewiseDemographics.totalOf data) := by
      simp [StorewiseDemographics.chartDataOf, List.map_map, Function.comp]
    have hpct : (data.map fun i => StorewiseDemographics.displayedPercentage i.population
            (StorewiseDemographics.totalOf data))
        = (data.map fun i => i.population).map fun x =>
            x / StorewiseDemographics.totalOf data * 100 := by
      simp only [List.map_map, Function.comp]
      refine List.map_congr_left ?_
      intro a _
      simp [StorewiseDemographics.displayedPercentage, if_pos hpos]
    rw [hmap, hpct, sum_map_div_mul, ← totalOf_eq_sum,
        div_self (ne_of_gt hpos), one_mul]
    norm_num

/-- Witness for C5 on a two-item distribution with counts 30 and 70. -/
theorem C5_witness :
    |((StorewiseDemographics.chartDataOf [⟨"A", 30⟩, ⟨"B", 70⟩]).map fun item =>
        StorewiseDemographics.displayedPercentage item.population item.total).sum - 100|
      ≤ 1/10 :=
  (C5_percentage_sum [⟨"A", 30⟩, ⟨"B", 70⟩] (by simp)
    (by norm_num [StorewiseDemographics.totalOf])).2

/-- Claim C3: every entry of the distributions collection is rendered as
exactly one panel -- the outcome list and the panel list have the same
length, no entry maps to null, entries with status success map to the success
chart panel, and every other entry maps to the failure panel showing its
status and error text; hence no outcome is dropped and one failed table
cannot suppress another panel. -/
theorem C3_every_outcome_rendered
    (ds : List (String × UnifiedDemographicAnalysis.Outcome)) :
    (UnifiedDemographicAnalysis.renderDistributions ds).length = ds.length ∧
    ∀ (i : ℕ) (hi : i < ds.length)
      (hi2 : i < (UnifiedDemographicAnalysis.renderDistributions ds).length),
      (UnifiedDemographicAnalysis.renderDistributions ds).get ⟨i, hi2⟩ ≠ none ∧
      ((ds.get ⟨i, hi⟩).2.status = "success" →
        (UnifiedDemographicAnalysis.renderDistributions ds).get ⟨i, hi2⟩ =
          some (UnifiedDemographicAnalysis.Panel.chart
            (UnifiedDemographicAnalysis.successPanel (ds.get ⟨i, hi⟩).1 (ds.get ⟨i, hi⟩).2))) ∧
      ((ds.get ⟨i, hi⟩).2.status ≠ "success" →
        (UnifiedDemographicAnalysis.renderDistributions ds).get ⟨i, hi2⟩ =
          some (UnifiedDemographicAnalysis.Panel.failed
            (UnifiedDemographicAnalysis.renderFailedDistribution
              (ds.get ⟨i, hi⟩).1 (ds.get ⟨i, hi⟩).2))) := by
  refine ⟨by simp [UnifiedDemographicAnalysis.renderDistributions], ?_⟩
  intro i hi hi2
  have hget : (UnifiedDemographicAnalysis.renderDistributions ds).get ⟨i, hi2⟩ =
      UnifiedDemographicAnalysis.renderEntry (ds.get ⟨i, hi⟩) := by
    simp [UnifiedDemographicAnalysis.renderDistributions, List.get_eq_getElem]
  rw [hget]
  simp only [List.get_eq_getElem]
  by_cases hs : ds[i].2.status = "success"
  · refine ⟨?_, fun _ => ?_, fun hns => absurd hs hns⟩ <;>
      simp [UnifiedDemographicAnalysis.renderEntry,
            UnifiedDemographicAnalysis.renderDistributionChart, hs]
  · refine ⟨?_, fun hcontra => absurd hcontra hs, fun _ => ?_⟩ <;>
      simp [UnifiedDemographicAnalysis.renderEntry, hs]

/-- Witness for C3 on a two-table collection with one success and one error
outcome: both panels are rendered, the failed one at position 1. -/
theorem C3_witness :
    (UnifiedDemographicAnalysis.renderDistributions Fixtures.exDistributions).length
      = Fixtures.exDistributions.length ∧
    (UnifiedDemographicAnalysis.renderDistributions Fixtures.exDistributions).get
        ⟨1, by decide⟩ =
      some (UnifiedDemographicAnalysis.Panel.failed
        (UnifiedDemographicAnalysis.renderFailedDistribution "income" Fixtures.errOutcome)) := by
  obtain ⟨hlen, hall⟩ := C3_every_outcome_rendered Fixtures.exDistributions
  refine ⟨hlen, ?_⟩
  have h := (hall 1 (by decide) (by decide)).2.2 (by decide)
  exact h

/-- The comparator sort is a permutation of its input. -/
lemma sortByOrder_perm (order : List String) (l : List AppJs.MarginalItem) :
    (AppJs.sortByOrder order l).Perm l :=
  List.perm_insertionSort _ _

/-- When every category appears in the order list, the comparator sort lists
items in ascending canonical position. -/
lemma sortByOrder_pairwise (order : List String) (l : List AppJs.MarginalItem)
    (h : ∀ item ∈ l, item.category ∈ order) :
    (AppJs.sortByOrder order l).Pairwise fun a b =>
      order.indexOf a.category ≤ order.indexOf b.category := by
  haveI : IsTotal AppJs.MarginalItem
      (fun a b => AppJs.jsIndexOf order a.category ≤ AppJs.jsIndexOf order b.category) :=
    ⟨fun a b => Int.le_total _ _⟩
  haveI : IsTrans AppJs.MarginalItem
      (fun a b => AppJs.jsIndexOf order a.category ≤ AppJs.jsIndexOf order b.category) :=
    ⟨fun _ _ _ hab hbc => le_trans hab hbc⟩
  have hsorted := List.sorted_insertionSort
    (fun a b => AppJs.jsIndexOf order a.category ≤ AppJs.jsIndexOf order b.category) l
  have hmem : ∀ a ∈ AppJs.sortByOrder order l, a.category ∈ order := by
    intro a ha
    exact h a ((sortByOrder_perm order l).mem_iff.mp ha)
  refine List.Pairwise.imp_of_mem ?_ hsorted
  intro a b ha hb hab
  have hia : AppJs.jsIndexOf order a.category = (order.indexOf a.category : Int) := by
    simp [AppJs.jsIndexOf, hmem a ha]
  have hib : AppJs.jsIndexOf order b.category = (order.indexOf b.category : Int) := by
    simp [AppJs.jsIndexOf, hmem b hb]
  rw [hia, hib] at hab
  exact_mod_cast hab

/-- Claim C8: sorting a marginal distribution by the fixed canonical category
order is a permutation of the input, and when every input category appears in
the canonical list the output is in ascending canonical position, for both
the age and the income marginals. -/
theorem C8_canonical_sort (ageM incM : List AppJs.MarginalItem) :
    (AppJs.sortedAgeData (some ageM)).Perm ageM ∧
    (AppJs.sortedIncomeData (some incM)).Perm incM ∧
    ((∀ item ∈ ageM, item.category ∈ AppJs.ageOrder) →
      (AppJs.sortedAgeData (some ageM)).Pairwise fun a b =>
        AppJs.ageOrder.indexOf a.category ≤ AppJs.ageOrder.indexOf b.category) ∧
    ((∀ item ∈ incM, item.category ∈ AppJs.incomeOrder) →
      (AppJs.sortedIncomeData (some incM)).Pairwise fun a b =>
        AppJs.incomeOrder.indexOf a.category ≤ AppJs.incomeOrder.indexOf b.category) :=
  ⟨sortByOrder_perm _ _, sortByOrder_perm _ _,
   fun h => sortByOrder_pairwise _ _ h, fun h => sortByOrder_pairwise _ _ h⟩

/-- Witness for C8 on a concrete out-of-order age marginal whose categories
all appear in the canonical age order. -/
theorem C8_witness :
    (AppJs.sortedAgeData
      (some [⟨"45 to 64 years", 5, 25⟩, ⟨"Under 25 years", 15, 75⟩])).Perm
      [⟨"45 to 64 years", 5, 25⟩, ⟨"Under 25 years", 15, 75⟩] ∧
    (AppJs.sortedAgeData
      (some [⟨"45 to 64 years", 5, 25⟩, ⟨"Under 25 years", 15, 75⟩])).Pairwise
      fun a b => AppJs.ageOrder.indexOf a.category ≤ AppJs.ageOrder.indexOf b.category :=
  ⟨(C8_canonical_sort [⟨"45 to 64 years", 5, 25⟩, ⟨"Under 25 years", 15, 75⟩] []).1,
   (C8_canonical_sort [⟨"45 to 64 years", 5, 25⟩, ⟨"Under 25 years", 15, 75⟩] []).2.2.1
     (by decide)⟩

/-- The left-to-right best scan returns a member of the scanned list. -/
lemma bestBy_mem (f : SpecModel.Category → ℚ) (x : SpecModel.Category)
    (xs : List SpecModel.Category) : SpecModel.bestBy f x xs ∈ x :: xs := by
  induction xs generalizing x with
  | nil => simp [SpecModel.bestBy]
  | cons c cs ih =>
    have hstep : SpecModel.bestBy f x (c :: cs)
        = SpecModel.bestBy f (if f x < f c then c else x) cs := by
      simp [SpecModel.bestBy]
    rw [hstep]
    rcases List.mem_cons.mp (ih (if f x < f c then c else x)) with h | h
    · rw [h]
      split_ifs <;> simp
    · exact List.mem_cons_of_mem _ (List.mem_cons_of_mem _ h)

/-- The left-to-right best scan dominates every scanned element. -/
lemma bestBy_le (f : SpecModel.Category → ℚ) (x : SpecModel.Category)
    (xs : List SpecModel.Category) :
    ∀ y ∈ x :: xs, f y ≤ f (SpecModel.bestBy f x xs) := by
  induction xs generalizing x with
  | nil =>
    intro y hy
    rw [List.mem_singleton] at hy
    subst hy
    simp [SpecModel.bestBy]
  | cons c cs ih =>
    intro y hy
    have hstep : SpecModel.bestBy f x (c :: cs)
        = SpecModel.bestBy f (if f x < f c then c else x) cs := by
      simp [SpecModel.bestBy]
    rw [hstep]
    have hhead : f x ≤ f (if f x < f c then c else x)
        ∧ f c ≤ f (if f x < f c then c else x) := by
      split_ifs with hfc
      · exact ⟨le_of_lt hfc, le_refl _⟩
      · exact ⟨le_refl _, le_of_not_lt hfc⟩
    have hind := ih (if f x < f c then c else x)
    rcases List.mem_cons.mp hy with rfl | hy2
    · exact le_trans hhead.1 (hind _ (List.mem_cons_self _ _))
    rcases List.mem_cons.mp hy2 with rfl | hy3
    · exact le_trans hhead.2 (hind _ (List.mem_cons_self _ _))
    · exact hind y (List.mem_cons_of_mem _ hy3)

/-- Claim C4: on any input string and nonempty candidate list, the matcher
returns a result (it never throws), the result carries the best-scoring
candidate label, and when no candidate scores above the 0.15 floor the
classification is no_match while the best-effort matched category is still
carried. -/
theorem C4_matcher_best_effort (input : String) (c : SpecModel.Category)
    (cs : List SpecModel.Category) :
    SpecModel.matchCategory input (c :: cs)
      = some (SpecModel.mkResult input (SpecModel.bestBy (SpecModel.scoreOf input) c cs)) ∧
    (SpecModel.mkResult input (SpecModel.bestBy (SpecModel.scoreOf input) c cs)).matched
      ∈ (c :: cs).map SpecModel.Category.label ∧
    (∀ cand ∈ c :: cs, SpecModel.scoreOf input cand
      ≤ (SpecModel.mkResult input (SpecModel.bestBy (SpecModel.scoreOf input) c cs)).score) ∧
    ((∀ cand ∈ c :: cs, SpecModel.scoreOf input cand ≤ 3/20) →
      (SpecModel.mkResult input (SpecModel.bestBy (SpecModel.scoreOf input) c cs)).classification
        = "no_match") := by
  refine ⟨rfl, ?_, ?_, ?_⟩
  · exact List.mem_map_of_mem _ (bestBy_mem _ c cs)
  · intro cand hc
    exact bestBy_le (SpecModel.scoreOf input) c cs cand hc
  · intro hall
    have hle := hall _ (bestBy_mem (SpecModel.scoreOf input) c cs)
    show (if 3/20 < SpecModel.scoreOf input
              (SpecModel.bestBy (SpecModel.scoreOf input) c cs)
          then _ else "no_match") = "no_match"
    rw [if_neg (not_lt.mpr hle)]

/-- Witness for C4: an input with no substring, numeric or token relation to
the only candidate scores 0, below the floor, and the matcher still returns
that candidate with classification no_match. -/
theorem C4_witness :
    SpecModel.matchCategory "??" [⟨"!!", none, none⟩]
      = some (SpecModel.mkResult "??"
          (SpecModel.bestBy (SpecModel.scoreOf "??") ⟨"!!", none, none⟩ [])) ∧
    (SpecModel.mkResult "??"
      (SpecModel.bestBy (SpecModel.scoreOf "??") ⟨"!!", none, none⟩ [])).classification
      = "no_match" ∧
    (SpecModel.mkResult "??"
      (SpecModel.bestBy (SpecModel.scoreOf "??") ⟨"!!", none, none⟩ [])).matched
      ∈ ([⟨"!!", none, none⟩] : List SpecModel.Category).map SpecModel.Category.label := by
  obtain ⟨h1, h2, _, h4⟩ := C4_matcher_best_effort "??" ⟨"!!", none, none⟩ []
  refine ⟨h1, h4 ?_, h2⟩
  intro cand hc
  rw [List.mem_singleton] at hc
  subst hc
  have h0 : SpecModel.scoreOf "??" ⟨"!!", none, none⟩ = 0 := rfl
  rw [h0]
  norm_num
